import Mathlib

/-!
Verification of the configuration-validation layer and cache contract of
fastapi-cacher, shallowly embedded from `src/fastapi_cacher/config.py` and
`src/fastapi_cacher/base.py`.
-/

set_option maxRecDepth 4000

/-- Python truthiness of a string: non-empty strings are truthy. -/
def pyTruthy (s : String) : Bool := !(s == "")

/-- Python truthiness of an optional string field (`None` and the empty
string are both falsy), used for `redis_host` and `redis_password`,
whose declared default in `config.py` is `None`. -/
def optTruthy : Option String → Bool
  | none => false
  | some s => !(s == "")

/-- The serializer collaborator. Modelled from the spec: the coder module
is not under src (only its import in `config.py` is); the spec describes a
pluggable serializer whose default is a JSON encode/decode pair. -/
inductive Coder where
  | JsonCoder
  | CustomCoder (tag : String)
deriving DecidableEq, Repr

/-- The closed enumeration of supported cache types,
`SUPPORTED_CACHE_TYPES` in `config.py`. -/
def SUPPORTED_CACHE_TYPES : List String :=
  ["SimpleCache", "RedisCache", "MongoCache", "MemCache"]

/-- The raw field set of `CacheConfig` in `config.py`, with the declared
defaults. `redis_host` and `redis_password` are `Option String` because
their Python default is `None`; the other string fields default to
literal strings. The class-level `Final` duration constants are modelled
as top-level constants below, not per-instance state. -/
structure CacheConfig where
  cache_type : String := "SimpleCache"
  default_timeout : Int := 300
  app_space : String := "fastapi-cacher"
  coder : Coder := Coder.JsonCoder
  sliding_expiration : Bool := false
  simple_cache_threshold : Int := 100
  redis_url : String := ""
  redis_host : Option String := none
  redis_port : Int := 6379
  redis_password : Option String := none
  redis_db : Int := 0
  mongo_url : String := ""
  mongo_database : String := "fastapi-cacher"
  mongo_collection : String := "cache"
  mongo_direct_connection : Bool := false
  memcache_host : String := ""
  memcache_port : Int := 11211
  memcache_threshold : Int := 100
deriving DecidableEq, Repr

/-- `ONE_HOUR` constant of `CacheConfig`. -/
def ONE_HOUR : Int := 3600

/-- `ONE_DAY = ONE_HOUR * 24` in `config.py`. -/
def ONE_DAY : Int := ONE_HOUR * 24

/-- `ONE_WEEK = ONE_DAY * 7` in `config.py`. -/
def ONE_WEEK : Int := ONE_DAY * 7

/-- `ONE_MONTH = ONE_DAY * 30` in `config.py`. -/
def ONE_MONTH : Int := ONE_DAY * 30

/-- `ONE_YEAR = ONE_DAY * 365` in `config.py`. -/
def ONE_YEAR : Int := ONE_DAY * 365

/-- Message raised by `validate_cache_type`; the source f-string
interpolates the `SUPPORTED_CACHE_TYPES` Literal alias, whose rendering
lists the four member names (Python quoting of the members elided). -/
def cacheTypeMsg : String :=
  "cache_type must be one of " ++ String.intercalate ", " SUPPORTED_CACHE_TYPES

/-- Message raised for an invalid RedisCache parameter combination. -/
def redisConnectionMsg : String :=
  "With RedisCache, either redis_url must be provided or (redis_host, redis_password) must be provided."

/-- Message raised for a missing mongo_url. -/
def mongoUrlMsg : String :=
  "With MongoCache, either mongo_url must be provided."

/-- Message raised for a missing memcache_host. -/
def memcacheHostMsg : String :=
  "With Memcache, memcache_host must be provided."

/-- The `validate_cache_type` field validator: rejects any value outside
the closed enumeration. -/
def validate_cache_type (value : String) : Except String String :=
  if SUPPORTED_CACHE_TYPES.contains value then Except.ok value
  else Except.error cacheTypeMsg

/-- The `validate_connection_attributes` model validator, run after field
validation: cross-field requirements per selected `cache_type`. -/
def validate_connection_attributes (values : CacheConfig) : Except String CacheConfig :=
  if values.cache_type == "RedisCache" then
    if !(pyTruthy values.redis_url) &&
       !(optTruthy values.redis_host && optTruthy values.redis_password) then
      Except.error redisConnectionMsg
    else Except.ok values
  else if values.cache_type == "MongoCache" then
    if !(pyTruthy values.mongo_url) then Except.error mongoUrlMsg
    else Except.ok values
  else if values.cache_type == "MemCache" then
    if !(pyTruthy values.memcache_host) then Except.error memcacheHostMsg
    else Except.ok values
  else Except.ok values

/-- Construct: pydantic runs field validators (here `validate_cache_type`)
before the after-mode model validator `validate_connection_attributes`.
Success returns the validated record, failure the raised message. -/
def construct (p : CacheConfig) : Except String CacheConfig :=
  match validate_cache_type p.cache_type with
  | Except.error e => Except.error e
  | Except.ok _ => validate_connection_attributes p

/-- Whether Construct succeeds on a parameter set. -/
def constructOk (p : CacheConfig) : Bool :=
  match construct p with
  | Except.ok _ => true
  | Except.error _ => false

/-- Whether the character list `sub` occurs at the head of `text`. -/
def leadMatch : List Char → List Char → Bool
  | [], _ => true
  | _ :: _, [] => false
  | a :: as, b :: bs => a == b && leadMatch as bs

/-- Whether the character list `sub` occurs anywhere inside `text`. -/
def occursIn (sub : List Char) : List Char → Bool
  | [] => sub.isEmpty
  | c :: cs => leadMatch sub (c :: cs) || occursIn sub cs

/-- Whether a message names (contains) the given field or value. -/
def strMentions (msg sub : String) : Bool := occursIn sub.data msg.data

/-- The Cache Contract for `get_with_ttl`. Modelled from the spec:
`BaseCache.get_with_ttl` in `src/fastapi_cacher/base.py` is only an
abstract declaration (its body raises NotImplementedError), so the
behavior required of conforming backends is taken from the spec. A
backend answers each key with an error or a pair of remaining TTL and
optional byte payload; `live` tells whether the key currently exists
unexpired; the contract requires a miss or expired key to yield the
normal, non-error result `(0, none)`. -/
structure CacheBackend where
  live : String → Bool
  get_with_ttl : String → Except String (Nat × Option (List Nat))
  miss_is_normal : ∀ k, live k = false → get_with_ttl k = Except.ok (0, none)

/-- Modelled from the spec: a concrete in-process store used to exhibit a
backend satisfying the Cache Contract; entries carry an absolute expiry
instant in seconds and a byte payload. -/
structure SimpleStore where
  entries : List (String × Nat × List Nat)

/-- Look a key up in the entry list. -/
def lookupEntry : List (String × Nat × List Nat) → String → Option (Nat × List Nat)
  | [], _ => none
  | (k, e, v) :: rest, key => if k == key then some (e, v) else lookupEntry rest key

/-- Whether a key exists and is unexpired at instant `now`. -/
def simpleLive (s : SimpleStore) (now : Nat) (k : String) : Bool :=
  match lookupEntry s.entries k with
  | none => false
  | some (e, _) => decide (now < e)

/-- TTL-and-payload read of the in-process store at instant `now`. -/
def simpleGetWithTTL (s : SimpleStore) (now : Nat) (k : String) : Nat × Option (List Nat) :=
  match lookupEntry s.entries k with
  | none => (0, none)
  | some (e, v) => if now < e then (e - now, some v) else (0, none)

/-- The in-process store satisfies the Cache Contract. -/
def simpleBackend (s : SimpleStore) (now : Nat) : CacheBackend where
  live := simpleLive s now
  get_with_ttl := fun k => Except.ok (simpleGetWithTTL s now k)
  miss_is_normal := by
    intro k h
    unfold simpleLive at h
    unfold simpleGetWithTTL
    cases hl : lookupEntry s.entries k with
    | none => simp [hl]
    | some p =>
      obtain ⟨e, v⟩ := p
      rw [hl] at h
      simp only [decide_eq_false_iff_not] at h
      simp [hl, h]

/-- C1: For cache_type RedisCache, Construct succeeds exactly when the
connection URL is truthy or both host and credential are truthy; when
neither alternative holds it fails with the message naming redis_url,
redis_host and redis_password; a URL alone suffices. -/
theorem redis_requires_url_or_host_password (p : CacheConfig)
    (h : p.cache_type = "RedisCache") :
    constructOk p = (pyTruthy p.redis_url || (optTruthy p.redis_host && optTruthy p.redis_password))
    ∧ ((pyTruthy p.redis_url || (optTruthy p.redis_host && optTruthy p.redis_password)) = true →
        construct p = Except.ok p)
    ∧ ((pyTruthy p.redis_url || (optTruthy p.redis_host && optTruthy p.redis_password)) = false →
        construct p = Except.error redisConnectionMsg)
    ∧ strMentions redisConnectionMsg "redis_url" = true
    ∧ strMentions redisConnectionMsg "redis_host" = true
    ∧ strMentions redisConnectionMsg "redis_password" = true := by
  refine ⟨?_, ?_, ?_, by decide, by decide, by decide⟩ <;>
  · simp only [constructOk, construct, validate_cache_type, validate_connection_attributes, h]
    cases hu : pyTruthy p.redis_url <;>
      cases hh : optTruthy p.redis_host <;>
        cases hp : optTruthy p.redis_password <;> simp [SUPPORTED_CACHE_TYPES]

/-- Witness for C1: a RedisCache configuration with only a URL succeeds. -/
theorem redis_url_alone_succeeds :
    construct { cache_type := "RedisCache", redis_url := "redis://localhost:6379" } =
      Except.ok { cache_type := "RedisCache", redis_url := "redis://localhost:6379" } :=
  (redis_requires_url_or_host_password _ rfl).2.1 (by decide)

/-- C2: With cache_type MongoCache, Construct fails exactly when mongo_url
is empty (with the mongo message); with cache_type MemCache, Construct
fails exactly when memcache_host is empty (with the memcache message). -/
theorem mongo_memcache_required_fields (p : CacheConfig) :
    (p.cache_type = "MongoCache" →
      (constructOk p = false ↔ p.mongo_url = "")
      ∧ (p.mongo_url = "" → construct p = Except.error mongoUrlMsg)
      ∧ (p.mongo_url ≠ "" → construct p = Except.ok p))
    ∧ (p.cache_type = "MemCache" →
      (constructOk p = false ↔ p.memcache_host = "")
      ∧ (p.memcache_host = "" → construct p = Except.error memcacheHostMsg)
      ∧ (p.memcache_host ≠ "" → construct p = Except.ok p)) := by
  constructor
  · intro h
    by_cases he : p.mongo_url = "" <;>
      simp [constructOk, construct, validate_cache_type, validate_connection_attributes, h,
        pyTruthy, SUPPORTED_CACHE_TYPES, he]
  · intro h
    by_cases he : p.memcache_host = "" <;>
      simp [constructOk, construct, validate_cache_type, validate_connection_attributes, h,
        pyTruthy, SUPPORTED_CACHE_TYPES, he]

/-- Witness for C2: an empty mongo_url fails with the mongo message, and a
MemCache configuration with a host succeeds. -/
theorem mongo_memcache_required_fields_witness :
    construct { cache_type := "MongoCache" } = Except.error mongoUrlMsg
    ∧ construct { cache_type := "MemCache", memcache_host := "localhost" } =
        Except.ok { cache_type := "MemCache", memcache_host := "localhost" } :=
  ⟨((mongo_memcache_required_fields { cache_type := "MongoCache" }).1 rfl).2.1 rfl,
   ((mongo_memcache_required_fields
      { cache_type := "MemCache", memcache_host := "localhost" }).2 rfl).2.2 (by decide)⟩

/-- C3: any cache_type outside the closed enumeration is rejected with the
message listing the four supported values. -/
theorem unsupported_cache_type_rejected (p : CacheConfig)
    (h : SUPPORTED_CACHE_TYPES.contains p.cache_type = false) :
    construct p = Except.error cacheTypeMsg
    ∧ strMentions cacheTypeMsg "SimpleCache" = true
    ∧ strMentions cacheTypeMsg "RedisCache" = true
    ∧ strMentions cacheTypeMsg "MongoCache" = true
    ∧ strMentions cacheTypeMsg "MemCache" = true := by
  refine ⟨?_, by decide, by decide, by decide, by decide⟩
  have hmem : ¬ p.cache_type ∈ SUPPORTED_CACHE_TYPES := by simpa using h
  simp [construct, validate_cache_type, hmem]

/-- Witness for C3: cache_type bogus is rejected. -/
theorem unsupported_cache_type_rejected_witness :
    construct { cache_type := "bogus" } = Except.error cacheTypeMsg :=
  (unsupported_cache_type_rejected { cache_type := "bogus" } (by decide)).1

/-- C4: with cache_type SimpleCache, Construct succeeds whatever the
connection parameters are. -/
theorem simple_cache_always_valid (p : CacheConfig)
    (h : p.cache_type = "SimpleCache") : construct p = Except.ok p := by
  simp [construct, validate_cache_type, validate_connection_attributes, h,
    SUPPORTED_CACHE_TYPES]

/-- Witness for C4: SimpleCache with every connection field left empty or
absent is accepted. -/
theorem simple_cache_always_valid_witness :
    construct { sliding_expiration := true } =
      Except.ok { sliding_expiration := true } :=
  simple_cache_always_valid { sliding_expiration := true } rfl

/-- C5 counterexample: Construct accepts default_timeout = 0 and returns a
Configuration whose default_timeout is 0, refuting that every returned
Configuration has a positive default_timeout. -/
theorem zero_timeout_accepted :
    construct { default_timeout := 0 } = Except.ok { default_timeout := 0 }
    ∧ ¬ (0 : Int) > 0 := ⟨rfl, by decide⟩

/-- C5 amended: default_timeout defaults to 300, a positive integer, but
Construct performs no positivity check: the success of validation is
unchanged by replacing default_timeout with any integer. -/
theorem timeout_not_validated (p : CacheConfig) (t : Int) :
    constructOk { p with default_timeout := t } = constructOk p
    ∧ ({} : CacheConfig).default_timeout = 300 := by
  refine ⟨?_, rfl⟩
  by_cases hct : p.cache_type ∈ SUPPORTED_CACHE_TYPES <;>
    cases h1 : p.cache_type == "RedisCache" <;>
      cases h2 : p.cache_type == "MongoCache" <;>
        cases h3 : p.cache_type == "MemCache" <;>
          by_cases h4 : pyTruthy p.redis_url = false ∧
              (optTruthy p.redis_host = false ∨ optTruthy p.redis_password = false) <;>
            cases h5 : pyTruthy p.mongo_url <;>
              cases h6 : pyTruthy p.memcache_host <;>
                simp [constructOk, construct, validate_cache_type,
                  validate_connection_attributes, hct, h1, h2, h3, h4, h5, h6]

/-- C6: the duration constants equal their durations in whole seconds:
ONE_HOUR = 3600, ONE_DAY = 24 hours = 86400, ONE_WEEK = 7 days = 604800,
ONE_MONTH = 30 days = 2592000, ONE_YEAR = 365 days = 31536000; they are
top-level constants, the same for every configuration. -/
theorem duration_constants_correct :
    ONE_HOUR = 3600 ∧ ONE_DAY = ONE_HOUR * 24 ∧ ONE_DAY = 86400
    ∧ ONE_WEEK = ONE_DAY * 7 ∧ ONE_WEEK = 604800
    ∧ ONE_MONTH = ONE_DAY * 30 ∧ ONE_MONTH = 2592000
    ∧ ONE_YEAR = ONE_DAY * 365 ∧ ONE_YEAR = 31536000 := by decide

/-- C7: Construct is deterministic and depends only on the input fields:
two parameter sets agreeing on every field validate to the same result. -/
theorem construct_deterministic (p q : CacheConfig)
    (h1 : p.cache_type = q.cache_type)
    (h2 : p.default_timeout = q.default_timeout)
    (h3 : p.app_space = q.app_space)
    (h4 : p.coder = q.coder)
    (h5 : p.sliding_expiration = q.sliding_expiration)
    (h6 : p.simple_cache_threshold = q.simple_cache_threshold)
    (h7 : p.redis_url = q.redis_url)
    (h8 : p.redis_host = q.redis_host)
    (h9 : p.redis_port = q.redis_port)
    (h10 : p.redis_password = q.redis_password)
    (h11 : p.redis_db = q.redis_db)
    (h12 : p.mongo_url = q.mongo_url)
    (h13 : p.mongo_database = q.mongo_database)
    (h14 : p.mongo_collection = q.mongo_collection)
    (h15 : p.mongo_direct_connection = q.mongo_direct_connection)
    (h16 : p.memcache_host = q.memcache_host)
    (h17 : p.memcache_port = q.memcache_port)
    (h18 : p.memcache_threshold = q.memcache_threshold) :
    construct p = construct q := by
  have hpq : p = q := by cases p; cases q; simp_all
  rw [hpq]

/-- Witness for C7: running validation twice on the default input yields
the identical outcome. -/
theorem construct_deterministic_witness :
    construct {} = construct ({} : CacheConfig) :=
  construct_deterministic {} {} rfl rfl rfl rfl rfl rfl rfl rfl rfl rfl rfl
    rfl rfl rfl rfl rfl rfl rfl

/-- C9: every backend satisfying the Cache Contract answers a missing or
expired key with the normal, non-error result (0, none). -/
theorem miss_returns_zero_none (b : CacheBackend) (k : String)
    (h : b.live k = false) : b.get_with_ttl k = Except.ok (0, none) :=
  b.miss_is_normal k h

/-- Witness for C9: an in-process backend holding an entry that expired at
instant 5, read at instant 9, returns (0, none) without error. -/
theorem miss_returns_zero_none_witness :
    (simpleBackend ⟨[("k", 5, [1, 2])]⟩ 9).get_with_ttl "k" =
      Except.ok (0, none) :=
  miss_returns_zero_none (simpleBackend ⟨[("k", 5, [1, 2])]⟩ 9) "k" (by decide)

/-- C10: Construct with no parameters succeeds, and the result keeps the
declared defaults: SimpleCache, timeout 300, app_space fastapi-cacher,
the JSON coder, and sliding_expiration off. -/
theorem default_construct_values :
    construct {} = Except.ok {}
    ∧ ({} : CacheConfig).cache_type = "SimpleCache"
    ∧ ({} : CacheConfig).default_timeout = 300
    ∧ ({} : CacheConfig).app_space = "fastapi-cacher"
    ∧ ({} : CacheConfig).coder = Coder.JsonCoder
    ∧ ({} : CacheConfig).sliding_expiration = false :=
  ⟨rfl, rfl, rfl, rfl, rfl, rfl⟩
